import Mathlib

/-!
Verification of the reservation transaction engine of a concert-ticket
booking API (TypeScript/Express/PostgreSQL).

The persistent store is modelled as an explicit record of lists mirroring
the SQL schema (`concerts`, `ticket_tiers`, `bookings`, `booking_items`).
The repository functions are shallow embeddings of the SQL statements in
`bookings.repository.ts`; the service function `BookingService.createBooking`
is a shallow embedding of `bookings.service.ts`, with the payment outcome
(`Math.random` in `payment.service.ts`) and the freshly generated booking id
(`randomUUID`) passed as explicit parameters.  Money (`DECIMAL(10,2)` /
JS number) is modelled as `ℚ`; SQL `INTEGER` columns as `Int`.
-/

/-- A row of `ticket_tiers` (schema `init.sql`, type `TicketTier`). -/
structure TicketTier where
  id : String
  concert_id : String
  tier_name : String
  price : ℚ
  total_quantity : Int
  available_quantity : Int
  version : Int
deriving DecidableEq

/-- A row of `bookings` (schema `init.sql`). -/
structure Booking where
  id : String
  concert_id : String
  user_id : String
  idempotency_key : String
  status : String
  total_amount : ℚ
deriving DecidableEq

/-- A row of `booking_items` (schema `init.sql`). -/
structure BookingItem where
  id : String
  booking_id : String
  tier_id : String
  quantity : Int
  price_per_ticket : ℚ
deriving DecidableEq

/-- The store of record: the four tables.  Concerts are tracked by id only
(the booking engine reads nothing else from them). -/
structure DBState where
  concerts : List String
  tiers : List TicketTier
  bookings : List Booking
  items : List BookingItem
deriving DecidableEq

/-- One entry of `dto.tickets` (`create-booking.dto.ts`). -/
structure TicketRequest where
  tierId : String
  quantity : Int
deriving DecidableEq

/-- The validated create-booking payload (`CreateBookingDto`). -/
structure CreateBookingDto where
  concertId : String
  userId : String
  tickets : List TicketRequest
  idempotencyKey : String
  totalAmount : ℚ
deriving DecidableEq

/-- Outcome of one `createBooking` attempt: the returned value on success, or
the error thrown (`app.error.ts` classes carrying the service's messages). -/
inductive BookingOutcome where
  | success (bookingId : String) (duplicate : Bool)
  | concertNotFound (concertId : String)
  | tiersNotFound (missing : List String)
  | tierNotFound (tierId : String)
  | insufficientInventory (tierName : String) (requested available : Int)
  | soldOut (tierName : String)
  | amountMismatch (expected received : ℚ)
  | paymentFailed
deriving DecidableEq

/-- External calls performed while the unit of work runs: the batched
`SELECT ... FOR UPDATE` lock acquisition and the payment-gateway call. -/
inductive Event where
  | lockAcquired (tierIds : List String) (concertId : String)
  | paymentCalled (amount : ℚ)
deriving DecidableEq

namespace ConcertRepository

/-- Embeds `SELECT 1 FROM concerts WHERE id = $1` followed by `rows.length > 0`
(`concerts.repository.ts`). -/
def exist (s : DBState) (concertId : String) : Bool :=
  s.concerts.contains concertId

end ConcertRepository

namespace BookingRepository

/-- Embeds `SELECT * FROM bookings WHERE idempotency_key = $1`, then `rows[0] || null`
(`findByIdempotencyKey`). -/
def findByIdempotencyKey (s : DBState) (idempotencyKey : String) : Option Booking :=
  (s.bookings.filter (fun b => b.idempotency_key == idempotencyKey)).head?

/-- Embeds `SELECT id, tier_name, available_quantity, price, version FROM ticket_tiers
WHERE id = ANY($1) AND concert_id = $2 FOR UPDATE` (`lockTicketTiers`).
The model returns the full rows; the service only reads the selected columns. -/
def lockTicketTiers (s : DBState) (tierIds : List String) (concertId : String) :
    List TicketTier :=
  s.tiers.filter (fun t => tierIds.contains t.id && t.concert_id == concertId)

/-- Embeds `UPDATE ticket_tiers SET available_quantity = available_quantity - $1,
version = version + 1 WHERE id = $2` (`updateTierInventory`). -/
def updateTierInventory (s : DBState) (tierId : String) (quantity : Int) : DBState :=
  { s with tiers := s.tiers.map (fun t =>
      if t.id == tierId then
        { t with available_quantity := t.available_quantity - quantity,
                 version := t.version + 1 }
      else t) }

/-- Embeds `INSERT INTO bookings (id, concert_id, user_id, idempotency_key, status,
total_amount) VALUES ...` (`createBooking`).  The source generates
`booking_${randomUUID()}` internally; the model receives the fresh id. -/
def createBooking (s : DBState) (b : Booking) : DBState :=
  { s with bookings := s.bookings ++ [b] }

/-- One element of the `items` argument of `createBookingItems`. -/
structure BookingItemInput where
  tierId : String
  quantity : Int
  pricePerTicket : ℚ
deriving DecidableEq

/-- The rows inserted by the `createBookingItems` loop.  Each row id is
`item_${randomUUID()}` in the source; the model derives a distinct id from
the booking id and a counter, standing in for the fresh UUIDs. -/
def mkItems (bookingId : String) : List BookingItemInput → Nat → List BookingItem
  | [], _ => []
  | it :: rest, n =>
      { id := "item_" ++ bookingId ++ "_" ++ toString n,
        booking_id := bookingId,
        tier_id := it.tierId,
        quantity := it.quantity,
        price_per_ticket := it.pricePerTicket } :: mkItems bookingId rest (n + 1)

/-- Embeds `INSERT INTO booking_items ...` executed once per item (`createBookingItems`). -/
def createBookingItems (s : DBState) (bookingId : String)
    (items : List BookingItemInput) : DBState :=
  { s with items := s.items ++ mkItems bookingId items 0 }

/-- Embeds `UPDATE bookings SET status = $1 WHERE id = $2` (`updateBookingStatus`). -/
def updateBookingStatus (s : DBState) (bookingId status : String) : DBState :=
  { s with bookings := s.bookings.map (fun b =>
      if b.id == bookingId then { b with status := status } else b) }

end BookingRepository

namespace BookingService

open BookingRepository

/-- STEP 4 of `createBooking`: the availability loop.  For each requested
ticket, find its locked tier; missing tier, insufficient inventory and the
(unreachable for positive quantities) sold-out check, in source order.
Returns the first error raised, or `none` when the loop completes. -/
def checkTickets (lockedTiers : List TicketTier) :
    List TicketRequest → Option BookingOutcome
  | [] => none
  | ticket :: rest =>
    match lockedTiers.find? (fun t => t.id == ticket.tierId) with
    | none => some (.tierNotFound ticket.tierId)
    | some tier =>
      if tier.available_quantity < ticket.quantity then
        some (.insufficientInventory tier.tier_name ticket.quantity
          tier.available_quantity)
      else if tier.available_quantity == 0 then
        some (.soldOut tier.tier_name)
      else checkTickets lockedTiers rest

/-- Embeds `lockedTiers.find(t => t.id === ticket.tierId)!.price`: the non-null
assertion is modelled by a default of 0; on every path where this is
evaluated the availability loop has already verified the tier is present. -/
def tierPrice (lockedTiers : List TicketTier) (tierId : String) : ℚ :=
  ((lockedTiers.find? (fun t => t.id == tierId)).map (fun t => t.price)).getD 0

/-- STEP 5: `dto.tickets.reduce((sum, t) => sum + Number(tier.price) * t.quantity, 0)`
over the locked, authoritative prices. -/
def calculatedTotal (lockedTiers : List TicketTier)
    (tickets : List TicketRequest) : ℚ :=
  tickets.foldl
    (fun sum ticket => sum + tierPrice lockedTiers ticket.tierId * (ticket.quantity : ℚ)) 0

/-- STEP 6: the inventory-update loop over `dto.tickets`. -/
def decrementAll (s : DBState) (tickets : List TicketRequest) : DBState :=
  tickets.foldl (fun st t => updateTierInventory st t.tierId t.quantity) s

/-- STEP 7's row: the booking header inserted with status `pending` and the
caller-supplied `dto.totalAmount`. -/
def pendingBooking (dto : CreateBookingDto) (bookingId : String) : Booking :=
  { id := bookingId, concert_id := dto.concertId, user_id := dto.userId,
    idempotency_key := dto.idempotencyKey, status := "pending",
    total_amount := dto.totalAmount }

/-- STEP 8's inputs: one item per requested ticket, price copied from the
locked tier at this instant. -/
def itemInputs (lockedTiers : List TicketTier)
    (tickets : List TicketRequest) : List BookingItemInput :=
  tickets.map (fun t =>
    { tierId := t.tierId, quantity := t.quantity,
      pricePerTicket := tierPrice lockedTiers t.tierId })

/-- Result of one run: final store state, outcome, and external calls made. -/
structure TxResult where
  state : DBState
  outcome : BookingOutcome
  events : List Event
deriving DecidableEq

/-- The body of `BookingService.createBooking` (`bookings.service.ts`), i.e.
the callback passed to `withTransaction`, before commit/rollback is applied:
steps 1-10 in source order.  Error branches before STEP 6 perform no writes,
so they return the entry state; the payment-failure branch returns the state
as written inside the still-open transaction (decrements, header, items, and
the `failed` status update), which `createBooking` then rolls back. -/
def createBookingTx (s : DBState) (dto : CreateBookingDto)
    (paymentSuccess : Bool) (newBookingId : String) : TxResult :=
  -- STEP 1: idempotency check
  match findByIdempotencyKey s dto.idempotencyKey with
  | some existingBooking => ⟨s, .success existingBooking.id true, []⟩
  | none =>
    -- STEP 2: concert existence
    if ConcertRepository.exist s dto.concertId then
      -- STEP 3: lock ticket tiers (ids in request order, unsorted)
      let tierIds := dto.tickets.map (fun t => t.tierId)
      let lockedTiers := lockTicketTiers s tierIds dto.concertId
      if lockedTiers.length = tierIds.length then
        -- STEP 4: availability checks
        match checkTickets lockedTiers dto.tickets with
        | some err => ⟨s, err, [Event.lockAcquired tierIds dto.concertId]⟩
        | none =>
          -- STEP 5: amount validation with absolute tolerance 0.01
          let calcTotal := calculatedTotal lockedTiers dto.tickets
          if 1/100 < |calcTotal - dto.totalAmount| then
            ⟨s, .amountMismatch calcTotal dto.totalAmount,
              [Event.lockAcquired tierIds dto.concertId]⟩
          else
            -- STEP 6: decrement inventory
            let s1 := decrementAll s dto.tickets
            -- STEP 7: insert booking header as pending
            let s2 := createBooking s1 (pendingBooking dto newBookingId)
            -- STEP 8: insert booking items
            let s3 := createBookingItems s2 newBookingId
              (itemInputs lockedTiers dto.tickets)
            -- STEP 9: payment
            if paymentSuccess then
              -- STEP 10: confirm (STEP 11 read-back is a pure read)
              ⟨updateBookingStatus s3 newBookingId "confirmed",
                .success newBookingId false,
                [Event.lockAcquired tierIds dto.concertId,
                 Event.paymentCalled dto.totalAmount]⟩
            else
              ⟨updateBookingStatus s3 newBookingId "failed",
                .paymentFailed,
                [Event.lockAcquired tierIds dto.concertId,
                 Event.paymentCalled dto.totalAmount]⟩
      else
        ⟨s, .tiersNotFound (tierIds.filter
            (fun id => !((lockedTiers.map (fun t => t.id)).contains id))),
          [Event.lockAcquired tierIds dto.concertId]⟩
    else
      ⟨s, .concertNotFound dto.concertId, []⟩

/-- An outcome the service surfaces by throwing (everything except the two
success returns). -/
def isError : BookingOutcome → Bool
  | .success _ _ => false
  | _ => true

/-- Modelled from the spec: `withTransaction` (`database/transaction.util.ts`,
absent from the provided sources; its callers, the repository README's
BEGIN/COMMIT/ROLLBACK sketch and spec section 4.4 document it) runs the body,
COMMITs on normal return and ROLLBACKs on a thrown error, restoring the
pre-transaction state; the thrown error is re-raised to the caller. -/
def createBooking (s : DBState) (dto : CreateBookingDto)
    (paymentSuccess : Bool) (newBookingId : String) : TxResult :=
  let r := createBookingTx s dto paymentSuccess newBookingId
  if isError r.outcome then ⟨s, r.outcome, r.events⟩ else r

end BookingService

/-! ## Specification-side definitions

These definitions state the properties claimed of the engine; they are not
translations of source code (except where noted) and exist to be related to
the embedded operations above. -/

/-- The status of the booking row with a given id, if present (`SELECT status
FROM bookings WHERE id = ...`-style lookup over the model state). -/
def bookingStatusOf (s : DBState) (bookingId : String) : Option String :=
  (s.bookings.find? (fun b => b.id == bookingId)).map (fun b => b.status)

/-- Total quantity over `booking_items` rows of a tier that belong to
bookings currently in status `confirmed` — the Σ of the conservation claim. -/
def confirmedQuantity (s : DBState) (tierId : String) : Int :=
  ((s.items.filter (fun it =>
      it.tier_id == tierId && bookingStatusOf s it.booking_id == some "confirmed")).map
    (fun it => it.quantity)).sum

/-- Conservation: every tier's availability equals its total capacity minus
the confirmed-booked quantity. -/
def conservation (s : DBState) : Prop :=
  ∀ t ∈ s.tiers, t.available_quantity = t.total_quantity - confirmedQuantity s t.id

/-- The check constraints of `ticket_tiers` (`check_quantity`, `check_total`
in the schema): `0 ≤ available ≤ total`. -/
def quantityBounds (s : DBState) : Prop :=
  ∀ t ∈ s.tiers, 0 ≤ t.available_quantity ∧ t.available_quantity ≤ t.total_quantity

/-- Total quantity a request asks of one tier (requests may in principle
repeat a tier; the engine rejects such requests, see `tierIds_nodup_of_lockedLength`). -/
def sumQtyFor (tickets : List TicketRequest) (tierId : String) : Int :=
  ((tickets.filter (fun tk => tk.tierId == tierId)).map (fun tk => tk.quantity)).sum

/-- Sum of `price_per_ticket × quantity` over the stored items of a booking. -/
def itemsTotal (s : DBState) (bookingId : String) : ℚ :=
  ((s.items.filter (fun it => it.booking_id == bookingId)).map
    (fun it => it.price_per_ticket * (it.quantity : ℚ))).sum

/-- The UNIQUE constraint on `bookings.idempotency_key` (schema `init.sql`). -/
def bookingsKeyUnique (s : DBState) : Prop :=
  (s.bookings.map (fun b => b.idempotency_key)).Nodup

/-- The tier rows the attempt locks, as determined by the request. -/
def lockedOf (s : DBState) (dto : CreateBookingDto) : List TicketTier :=
  BookingRepository.lockTicketTiers s (dto.tickets.map (fun t => t.tierId)) dto.concertId

/-- The attempt passes steps 1-4 (idempotency miss, concert exists, all tiers
locked, availability checks pass) and reaches the price-validation step. -/
def reachesPriceCheck (s : DBState) (dto : CreateBookingDto) : Prop :=
  BookingRepository.findByIdempotencyKey s dto.idempotencyKey = none ∧
  ConcertRepository.exist s dto.concertId = true ∧
  (lockedOf s dto).length = (dto.tickets.map (fun t => t.tierId)).length ∧
  BookingService.checkTickets (lockedOf s dto) dto.tickets = none

/-- The attempt passes every validation step and reaches the write phase. -/
def pathConds (s : DBState) (dto : CreateBookingDto) : Prop :=
  reachesPriceCheck s dto ∧
  ¬(1/100 < |BookingService.calculatedTotal (lockedOf s dto) dto.tickets - dto.totalAmount|)

/-- The state after the write phase with final status `st`: inventory
decremented, booking header inserted, items inserted, status updated. -/
def writtenState (s : DBState) (dto : CreateBookingDto) (bid : String)
    (st : String) : DBState :=
  BookingRepository.updateBookingStatus
    (BookingRepository.createBookingItems
      (BookingRepository.createBooking (BookingService.decrementAll s dto.tickets)
        (BookingService.pendingBooking dto bid))
      bid (BookingService.itemInputs (lockedOf s dto) dto.tickets))
    bid st

/-- The events of a run that reaches the payment step. -/
def txEvents (dto : CreateBookingDto) : List Event :=
  [Event.lockAcquired (dto.tickets.map (fun t => t.tierId)) dto.concertId,
   Event.paymentCalled dto.totalAmount]

/-- Inputs of one attempt in a sequence: the payload, the payment gateway's
answer, and the fresh booking id drawn for it. -/
structure AttemptInput where
  dto : CreateBookingDto
  paymentSuccess : Bool
  newBookingId : String

/-- Run a sequence of completed `createBooking` attempts left to right. -/
def runBookings (s : DBState) : List AttemptInput → DBState
  | [] => s
  | a :: rest =>
      runBookings (BookingService.createBooking s a.dto a.paymentSuccess a.newBookingId).state rest

/-! ## Unfolding lemmas for `createBooking` -/

open BookingService in
lemma checkTickets_err (lockedTiers : List TicketTier) (tickets : List TicketRequest)
    (e : BookingOutcome) (h : checkTickets lockedTiers tickets = some e) :
    (∀ x d, e ≠ .success x d) ∧ e ≠ .paymentFailed := by
  induction tickets with
  | nil => simp [checkTickets] at h
  | cons tk rest ih =>
    rw [checkTickets] at h
    cases hf : lockedTiers.find? (fun t => t.id == tk.tierId) with
    | none =>
      simp only [hf] at h
      injection h with h
      subst h
      simp
    | some tier =>
      simp only [hf] at h
      by_cases h1 : tier.available_quantity < tk.quantity
      · rw [if_pos h1] at h
        injection h with h
        subst h
        simp
      · rw [if_neg h1] at h
        by_cases h2 : (tier.available_quantity == 0) = true
        · rw [if_pos h2] at h
          injection h with h
          subst h
          simp
        · rw [if_neg h2] at h
          exact ih h

open BookingService in
lemma createBooking_outcome_eq_tx (s : DBState) (dto : CreateBookingDto)
    (pay : Bool) (bid : String) :
    (createBooking s dto pay bid).outcome = (createBookingTx s dto pay bid).outcome := by
  unfold BookingService.createBooking
  by_cases hc : isError (createBookingTx s dto pay bid).outcome = true
  · simp only [hc, if_true]
  · simp only [if_neg hc]

open BookingService in
lemma createBooking_events_eq_tx (s : DBState) (dto : CreateBookingDto)
    (pay : Bool) (bid : String) :
    (createBooking s dto pay bid).events = (createBookingTx s dto pay bid).events := by
  unfold BookingService.createBooking
  by_cases hc : isError (createBookingTx s dto pay bid).outcome = true
  · simp only [hc, if_true]
  · simp only [if_neg hc]

open BookingService in
/-- Master case analysis of one transaction run: either no write branch was
reached (entry state returned, outcome neither a fresh success nor a payment
failure), or every validation passed and the run ended in the confirmed write
or in the payment-failure write. -/
lemma tx_cases (s : DBState) (dto : CreateBookingDto) (pay : Bool) (bid : String) :
    ((createBookingTx s dto pay bid).state = s ∧
      (∀ x, (createBookingTx s dto pay bid).outcome ≠ .success x false) ∧
      (createBookingTx s dto pay bid).outcome ≠ .paymentFailed) ∨
    (pathConds s dto ∧
      ((pay = true ∧ createBookingTx s dto pay bid =
          ⟨writtenState s dto bid "confirmed", .success bid false, txEvents dto⟩) ∨
       (pay = false ∧ createBookingTx s dto pay bid =
          ⟨writtenState s dto bid "failed", .paymentFailed, txEvents dto⟩))) := by
  unfold createBookingTx
  cases h1 : BookingRepository.findByIdempotencyKey s dto.idempotencyKey with
  | some b => exact Or.inl (by simp [h1])
  | none =>
    simp only [h1]
    by_cases h2 : ConcertRepository.exist s dto.concertId = true
    · rw [if_pos h2]
      by_cases h3 : (BookingRepository.lockTicketTiers s
          (dto.tickets.map (fun t => t.tierId)) dto.concertId).length =
          (dto.tickets.map (fun t => t.tierId)).length
      · rw [if_pos h3]
        cases h4 : checkTickets (BookingRepository.lockTicketTiers s
            (dto.tickets.map (fun t => t.tierId)) dto.concertId) dto.tickets with
        | some err =>
          have he := checkTickets_err _ _ _ h4
          refine Or.inl ⟨?_, ?_, ?_⟩
          · simp only [h4]
          · simp only [h4]
            exact fun x => he.1 x false
          · simp only [h4]
            exact he.2
        | none =>
          simp only [h4]
          by_cases h5 : 1/100 < |calculatedTotal (BookingRepository.lockTicketTiers s
              (dto.tickets.map (fun t => t.tierId)) dto.concertId) dto.tickets - dto.totalAmount|
          · rw [if_pos h5]
            exact Or.inl ⟨rfl, by simp, by simp⟩
          · rw [if_neg h5]
            refine Or.inr ⟨⟨⟨h1, h2, h3, h4⟩, h5⟩, ?_⟩
            cases pay with
            | false => exact Or.inr ⟨rfl, rfl⟩
            | true => exact Or.inl ⟨rfl, rfl⟩
      · rw [if_neg h3]
        exact Or.inl ⟨rfl, by simp, by simp⟩
    · rw [if_neg h2]
      exact Or.inl ⟨rfl, by simp, by simp⟩

open BookingService in
lemma createBooking_state_eq (s : DBState) (dto : CreateBookingDto)
    (pay : Bool) (bid : String) :
    (createBooking s dto pay bid).state =
      if isError (createBookingTx s dto pay bid).outcome then s
      else (createBookingTx s dto pay bid).state := by
  unfold BookingService.createBooking
  by_cases hc : isError (createBookingTx s dto pay bid).outcome = true
  · simp only [hc, if_true]
  · simp only [if_neg hc]

open BookingService in
/-- A fresh (non-duplicate) success means every validation passed, the
payment succeeded, and the run ended exactly in the confirmed write. -/
lemma tx_success_char (s : DBState) (dto : CreateBookingDto) (pay : Bool)
    (bid bid2 : String)
    (h : (createBookingTx s dto pay bid).outcome = .success bid2 false) :
    bid2 = bid ∧ pathConds s dto ∧ pay = true ∧
      createBookingTx s dto pay bid =
        ⟨writtenState s dto bid "confirmed", .success bid false, txEvents dto⟩ := by
  rcases tx_cases s dto pay bid with ⟨_, hne, _⟩ | ⟨hpc, hbr⟩
  · exact absurd h (hne bid2)
  · rcases hbr with ⟨hp, heq⟩ | ⟨hp, heq⟩
    · rw [heq] at h
      simp only [TxResult.mk.injEq] at h ⊢
      obtain ⟨hb, -⟩ := BookingOutcome.success.inj h
      exact ⟨hb.symm, hpc, hp, heq ▸ rfl⟩
    · rw [heq] at h
      exact absurd h (by simp)

open BookingService in
/-- A payment-failed outcome means every validation passed, the payment step
was reached and failed, and the transaction body ended in the failed write. -/
lemma tx_paymentFailed_char (s : DBState) (dto : CreateBookingDto) (pay : Bool)
    (bid : String)
    (h : (createBookingTx s dto pay bid).outcome = .paymentFailed) :
    pathConds s dto ∧ pay = false ∧
      createBookingTx s dto pay bid =
        ⟨writtenState s dto bid "failed", .paymentFailed, txEvents dto⟩ := by
  rcases tx_cases s dto pay bid with ⟨_, _, hne⟩ | ⟨hpc, hbr⟩
  · exact absurd h hne
  · rcases hbr with ⟨hp, heq⟩ | ⟨hp, heq⟩
    · rw [heq] at h
      exact absurd h (by simp)
    · exact ⟨hpc, hp, heq⟩

open BookingService in
lemma createBooking_success_char (s : DBState) (dto : CreateBookingDto)
    (pay : Bool) (bid bid2 : String)
    (h : (createBooking s dto pay bid).outcome = .success bid2 false) :
    bid2 = bid ∧ pathConds s dto ∧ pay = true ∧
      createBooking s dto pay bid =
        ⟨writtenState s dto bid "confirmed", .success bid false, txEvents dto⟩ := by
  rw [createBooking_outcome_eq_tx] at h
  obtain ⟨hb, hpc, hp, heq⟩ := tx_success_char s dto pay bid bid2 h
  refine ⟨hb, hpc, hp, ?_⟩
  unfold BookingService.createBooking
  rw [heq]
  simp [isError]

lemma decrementAll_bookings (s : DBState) (tks : List TicketRequest) :
    (BookingService.decrementAll s tks).bookings = s.bookings := by
  induction tks generalizing s with
  | nil => rfl
  | cons tk rest ih =>
    rw [BookingService.decrementAll, List.foldl_cons]
    exact ih _

lemma decrementAll_items (s : DBState) (tks : List TicketRequest) :
    (BookingService.decrementAll s tks).items = s.items := by
  induction tks generalizing s with
  | nil => rfl
  | cons tk rest ih =>
    rw [BookingService.decrementAll, List.foldl_cons]
    exact ih _

lemma writtenState_bookings (s : DBState) (dto : CreateBookingDto) (bid st : String) :
    (writtenState s dto bid st).bookings =
      s.bookings.map (fun b => if b.id == bid then { b with status := st } else b) ++
      [{ id := bid, concert_id := dto.concertId, user_id := dto.userId,
         idempotency_key := dto.idempotencyKey, status := st,
         total_amount := dto.totalAmount }] := by
  simp [writtenState, BookingRepository.updateBookingStatus,
        BookingRepository.createBookingItems, BookingRepository.createBooking,
        decrementAll_bookings, BookingService.pendingBooking]

lemma writtenState_mem_booking (s : DBState) (dto : CreateBookingDto) (bid st : String) :
    ∃ b ∈ (writtenState s dto bid st).bookings,
      b.id = bid ∧ b.status = st ∧ b.idempotency_key = dto.idempotencyKey ∧
      b.total_amount = dto.totalAmount := by
  refine ⟨⟨bid, dto.concertId, dto.userId, dto.idempotencyKey, st, dto.totalAmount⟩,
    ?_, rfl, rfl, rfl, rfl⟩
  rw [writtenState_bookings]
  simp

/-- C2: if the payment step reports failure, the whole unit of work is rolled
back: the final state equals the state immediately before the attempt (so
every tier's availability is unchanged), the attempt surfaces the
payment-failed error, no booking row for the attempt is retrievable
afterwards, and in particular the `failed`-status row that the service writes
just before throwing exists only inside the aborted transaction body and is
undone by the abort. -/
theorem paymentFailureLeavesNoTrace (s : DBState) (dto : CreateBookingDto) (bid : String)
    (h : (BookingService.createBookingTx s dto false bid).outcome = .paymentFailed)
    (hfresh : ∀ b ∈ s.bookings, b.id ≠ bid) :
    (BookingService.createBooking s dto false bid).state = s ∧
    (BookingService.createBooking s dto false bid).outcome = .paymentFailed ∧
    (∀ b ∈ (BookingService.createBooking s dto false bid).state.bookings, b.id ≠ bid) ∧
    (∃ b ∈ (BookingService.createBookingTx s dto false bid).state.bookings,
       b.id = bid ∧ b.status = "failed") := by
  obtain ⟨hpc, -, heq⟩ := tx_paymentFailed_char s dto false bid h
  have hstate : (BookingService.createBooking s dto false bid).state = s := by
    rw [createBooking_state_eq, heq]
    simp [BookingService.isError]
  refine ⟨hstate, ?_, ?_, ?_⟩
  · rw [createBooking_outcome_eq_tx, h]
  · rw [hstate]
    exact hfresh
  · rw [heq]
    obtain ⟨b, hb, h1, h2, -, -⟩ := writtenState_mem_booking s dto bid "failed"
    exact ⟨b, hb, h1, h2⟩

/-- A one-concert, one-tier store used to instantiate the theorems:
concert `c1` with tier `t1` (VIP, price 100, capacity 50, 10 available). -/
def demoState : DBState :=
  { concerts := ["c1"],
    tiers := [⟨"t1", "c1", "VIP", 100, 50, 10, 0⟩],
    bookings := [], items := [] }

/-- A well-formed request against `demoState`: two VIP tickets for 200. -/
def demoDto : CreateBookingDto :=
  { concertId := "c1", userId := "u1", tickets := [⟨"t1", 2⟩],
    idempotencyKey := "k1", totalAmount := 200 }

theorem paymentFailureLeavesNoTrace_witness :
    (BookingService.createBooking demoState demoDto false "b1").state = demoState ∧
    (BookingService.createBooking demoState demoDto false "b1").outcome = .paymentFailed ∧
    (∀ b ∈ (BookingService.createBooking demoState demoDto false "b1").state.bookings,
       b.id ≠ "b1") ∧
    (∃ b ∈ (BookingService.createBookingTx demoState demoDto false "b1").state.bookings,
       b.id = "b1" ∧ b.status = "failed") :=
  paymentFailureLeavesNoTrace demoState demoDto "b1"
    (by norm_num [BookingService.createBookingTx, BookingRepository.findByIdempotencyKey,
      demoState, demoDto, ConcertRepository.exist, BookingRepository.lockTicketTiers,
      BookingService.checkTickets, BookingService.calculatedTotal, BookingService.tierPrice])
    (by simp [demoState])

lemma findByIdempotencyKey_eq_none (s : DBState) (k : String) :
    BookingRepository.findByIdempotencyKey s k = none ↔
      ∀ b ∈ s.bookings, ¬(b.idempotency_key == k) := by
  unfold BookingRepository.findByIdempotencyKey
  rw [List.head?_eq_none_iff, List.filter_eq_nil_iff]

lemma createBooking_duplicate (s : DBState) (dto : CreateBookingDto) (pay : Bool)
    (bid : String) (b : Booking)
    (hfind : BookingRepository.findByIdempotencyKey s dto.idempotencyKey = some b) :
    BookingService.createBooking s dto pay bid = ⟨s, .success b.id true, []⟩ := by
  unfold BookingService.createBooking BookingService.createBookingTx
  simp only [hfind]
  simp [BookingService.isError]

lemma writtenState_findKey (s : DBState) (dto : CreateBookingDto) (bid st : String)
    (h0 : BookingRepository.findByIdempotencyKey s dto.idempotencyKey = none) :
    BookingRepository.findByIdempotencyKey (writtenState s dto bid st) dto.idempotencyKey =
      some { id := bid, concert_id := dto.concertId, user_id := dto.userId,
             idempotency_key := dto.idempotencyKey, status := st,
             total_amount := dto.totalAmount } := by
  rw [findByIdempotencyKey_eq_none] at h0
  unfold BookingRepository.findByIdempotencyKey
  rw [writtenState_bookings, List.filter_append]
  have h1 : (s.bookings.map
      (fun b => if b.id == bid then { b with status := st } else b)).filter
      (fun b => b.idempotency_key == dto.idempotencyKey) = [] := by
    rw [List.filter_eq_nil_iff]
    intro x hx
    obtain ⟨b, hb, rfl⟩ := List.mem_map.mp hx
    have hkey : ((if b.id == bid then { b with status := st } else b) :
        Booking).idempotency_key = b.idempotency_key := by
      by_cases hb2 : b.id == bid <;> simp [hb2]
    rw [hkey]
    exact h0 b hb
  rw [h1]
  simp

/-- C3: a second `createBooking` carrying the idempotency key of a first call
that completed as a fresh success short-circuits: it returns the same booking
id tagged `duplicate`, leaves the store (in particular all inventory) exactly
unchanged, and performs no lock acquisition and no payment call (its event
trace is empty). -/
theorem duplicateSubmissionShortCircuits (s : DBState) (dto : CreateBookingDto)
    (pay pay2 : Bool) (bid bid2 : String)
    (h : (BookingService.createBooking s dto pay bid).outcome = .success bid false) :
    BookingService.createBooking
        (BookingService.createBooking s dto pay bid).state dto pay2 bid2 =
      ⟨(BookingService.createBooking s dto pay bid).state, .success bid true, []⟩ := by
  obtain ⟨-, hpc, -, heq⟩ := createBooking_success_char s dto pay bid bid h
  have hstate : (BookingService.createBooking s dto pay bid).state =
      writtenState s dto bid "confirmed" := by rw [heq]
  have hfind := writtenState_findKey s dto bid "confirmed" hpc.1.1
  rw [hstate]
  exact createBooking_duplicate _ dto pay2 bid2 _ hfind

theorem duplicateSubmissionShortCircuits_witness :
    BookingService.createBooking
        (BookingService.createBooking demoState demoDto true "b1").state demoDto true "b2" =
      ⟨(BookingService.createBooking demoState demoDto true "b1").state,
        .success "b1" true, []⟩ :=
  duplicateSubmissionShortCircuits demoState demoDto true true "b1" "b2"
    (by norm_num [BookingService.createBooking, BookingService.createBookingTx,
      BookingService.isError, BookingRepository.findByIdempotencyKey,
      demoState, demoDto, ConcertRepository.exist, BookingRepository.lockTicketTiers,
      BookingService.checkTickets, BookingService.calculatedTotal, BookingService.tierPrice])

/-- C4: once an attempt reaches the price-validation step, the total is
recomputed from the locked tiers' authoritative prices (`calculatedTotal`
reads only `lockedOf`, never `dto.totalAmount`), and the attempt is rejected
with the amount-mismatch error — with the store left exactly unchanged —
precisely when the recomputed total differs from the claimed total by more
than 0.01 in absolute value. -/
theorem amountValidationExact (s : DBState) (dto : CreateBookingDto)
    (pay : Bool) (bid : String) (h : reachesPriceCheck s dto) :
    ((BookingService.createBooking s dto pay bid).outcome =
        .amountMismatch (BookingService.calculatedTotal (lockedOf s dto) dto.tickets)
          dto.totalAmount ↔
      1/100 < |BookingService.calculatedTotal (lockedOf s dto) dto.tickets -
        dto.totalAmount|) ∧
    (1/100 < |BookingService.calculatedTotal (lockedOf s dto) dto.tickets -
        dto.totalAmount| →
      (BookingService.createBooking s dto pay bid).state = s) := by
  obtain ⟨h1, h2, h3, h4⟩ := h
  simp only [lockedOf] at h3 h4 ⊢
  have hout := createBooking_outcome_eq_tx s dto pay bid
  have hst := createBooking_state_eq s dto pay bid
  unfold BookingService.createBookingTx at hout hst
  rw [h1] at hout hst
  simp only [] at hout hst
  rw [if_pos h2] at hout hst
  rw [if_pos h3] at hout hst
  rw [h4] at hout hst
  by_cases h5 : 1/100 < |BookingService.calculatedTotal
      (BookingRepository.lockTicketTiers s (dto.tickets.map (fun t => t.tierId))
        dto.concertId) dto.tickets - dto.totalAmount|
  · rw [if_pos h5] at hout hst
    refine ⟨⟨fun _ => h5, fun _ => ?_⟩, fun _ => ?_⟩
    · exact hout
    · rw [hst]
      simp [BookingService.isError]
  · rw [if_neg h5] at hout hst
    refine ⟨⟨fun hc => ?_, fun hc => absurd hc h5⟩, fun hc => absurd hc h5⟩
    exfalso
    have hcontra := hout.symm.trans hc
    cases pay <;> simp at hcontra

/-- Variant of `demoDto` with a claimed total of 100 against an authoritative total of 200. -/
def demoDtoBad : CreateBookingDto :=
  { concertId := "c1", userId := "u1", tickets := [⟨"t1", 2⟩],
    idempotencyKey := "k1", totalAmount := 100 }

theorem amountValidationExact_witness :
    reachesPriceCheck demoState demoDtoBad ∧
    (((BookingService.createBooking demoState demoDtoBad true "b1").outcome =
        .amountMismatch (BookingService.calculatedTotal (lockedOf demoState demoDtoBad)
          demoDtoBad.tickets) demoDtoBad.totalAmount ↔
      1/100 < |BookingService.calculatedTotal (lockedOf demoState demoDtoBad)
        demoDtoBad.tickets - demoDtoBad.totalAmount|) ∧
    (1/100 < |BookingService.calculatedTotal (lockedOf demoState demoDtoBad)
        demoDtoBad.tickets - demoDtoBad.totalAmount| →
      (BookingService.createBooking demoState demoDtoBad true "b1").state = demoState)) :=
  ⟨by norm_num [reachesPriceCheck, lockedOf, BookingRepository.findByIdempotencyKey,
      demoState, demoDtoBad, ConcertRepository.exist, BookingRepository.lockTicketTiers,
      BookingService.checkTickets],
   amountValidationExact demoState demoDtoBad true "b1"
    (by norm_num [reachesPriceCheck, lockedOf, BookingRepository.findByIdempotencyKey,
      demoState, demoDtoBad, ConcertRepository.exist, BookingRepository.lockTicketTiers,
      BookingService.checkTickets])⟩

/-- A store whose only tier is sold out (`available_quantity = 0`). -/
def soldOutState : DBState :=
  { concerts := ["c1"],
    tiers := [⟨"t1", "c1", "VIP", 100, 50, 0, 0⟩],
    bookings := [], items := [] }

/-- A request for one ticket of the sold-out tier. -/
def soldOutDto : CreateBookingDto :=
  { concertId := "c1", userId := "u1", tickets := [⟨"t1", 1⟩],
    idempotencyKey := "k1", totalAmount := 100 }

/-- C5 (evaluation at the failing input): a positive-quantity request against
a tier with `available_quantity = 0` is rejected with the generic
insufficient-inventory error, not with the sold-out error: the service checks
`available < quantity` (true, since `0 < 1`) before `available === 0`, so the
sold-out branch is unreachable for every positive quantity.  State is left
unchanged, as the claim says. -/
theorem soldOutReportedAsInsufficient :
    (BookingService.createBooking soldOutState soldOutDto true "b1").outcome =
      .insufficientInventory "VIP" 1 0 ∧
    (BookingService.createBooking soldOutState soldOutDto true "b1").outcome ≠
      .soldOut "VIP" ∧
    (BookingService.createBooking soldOutState soldOutDto true "b1").state =
      soldOutState := by
  have h1 : (BookingService.createBooking soldOutState soldOutDto true "b1").outcome =
      .insufficientInventory "VIP" 1 0 := by
    norm_num [BookingService.createBooking, BookingService.createBookingTx,
      BookingService.isError, BookingRepository.findByIdempotencyKey,
      soldOutState, soldOutDto, ConcertRepository.exist,
      BookingRepository.lockTicketTiers, BookingService.checkTickets]
  refine ⟨h1, ?_, ?_⟩
  · rw [h1]
    decide
  · norm_num [BookingService.createBooking, BookingService.createBookingTx,
      BookingService.isError, BookingRepository.findByIdempotencyKey,
      soldOutState, soldOutDto, ConcertRepository.exist,
      BookingRepository.lockTicketTiers, BookingService.checkTickets]

/-- A store with two tiers `a`, `b` of one concert, both amply available. -/
def twoTierState : DBState :=
  { concerts := ["c1"],
    tiers := [⟨"a", "c1", "A", 100, 50, 10, 0⟩, ⟨"b", "c1", "B", 100, 50, 10, 0⟩],
    bookings := [], items := [] }

/-- A request listing tier `b` before tier `a`. -/
def dtoBA : CreateBookingDto :=
  { concertId := "c1", userId := "u1", tickets := [⟨"b", 1⟩, ⟨"a", 1⟩],
    idempotencyKey := "k1", totalAmount := 200 }

/-- The same tier set requested in the opposite order. -/
def dtoAB : CreateBookingDto :=
  { concertId := "c1", userId := "u1", tickets := [⟨"a", 1⟩, ⟨"b", 1⟩],
    idempotencyKey := "k2", totalAmount := 200 }

lemma createBooking_events_lock (s : DBState) (dto : CreateBookingDto)
    (pay : Bool) (bid : String)
    (h1 : BookingRepository.findByIdempotencyKey s dto.idempotencyKey = none)
    (h2 : ConcertRepository.exist s dto.concertId = true) :
    (BookingService.createBooking s dto pay bid).events.head? =
      some (.lockAcquired (dto.tickets.map (fun t => t.tierId)) dto.concertId) := by
  rw [createBooking_events_eq_tx]
  unfold BookingService.createBookingTx
  rw [h1]
  simp only []
  rw [if_pos h2]
  by_cases h3 : (BookingRepository.lockTicketTiers s
      (dto.tickets.map (fun t => t.tierId)) dto.concertId).length =
      (dto.tickets.map (fun t => t.tierId)).length
  · rw [if_pos h3]
    cases h4 : BookingService.checkTickets (BookingRepository.lockTicketTiers s
        (dto.tickets.map (fun t => t.tierId)) dto.concertId) dto.tickets with
    | some err => simp [h4]
    | none =>
      simp only [h4]
      by_cases h5 : 1/100 < |BookingService.calculatedTotal
          (BookingRepository.lockTicketTiers s (dto.tickets.map (fun t => t.tierId))
            dto.concertId) dto.tickets - dto.totalAmount|
      · rw [if_pos h5]
        rfl
      · rw [if_neg h5]
        cases pay <;> simp
  · rw [if_neg h3]
    rfl

/-- C6 counterexample: the batched lock request receives the tier ids exactly
in the order the caller listed the tickets — two attempts over the same two
tiers issue `["b", "a"]` and `["a", "b"]` respectively — so no deterministic
total order (ascending or otherwise) is applied before the call. -/
theorem lockOrderFollowsRequestOrder_counterexample :
    (BookingService.createBooking twoTierState dtoBA true "x").events.head? =
      some (.lockAcquired ["b", "a"] "c1") ∧
    (BookingService.createBooking twoTierState dtoAB true "y").events.head? =
      some (.lockAcquired ["a", "b"] "c1") ∧
    (["b", "a"] : List String) ≠ ["a", "b"] := by
  refine ⟨?_, ?_, by decide⟩
  · have h := createBooking_events_lock twoTierState dtoBA true "x"
      (by norm_num [BookingRepository.findByIdempotencyKey, twoTierState, dtoBA])
      (by norm_num [ConcertRepository.exist, twoTierState, dtoBA])
    simpa [dtoBA] using h
  · have h := createBooking_events_lock twoTierState dtoAB true "y"
      (by norm_num [BookingRepository.findByIdempotencyKey, twoTierState, dtoAB])
      (by norm_num [ConcertRepository.exist, twoTierState, dtoAB])
    simpa [dtoAB] using h

/-- C6 amended: every attempt that reaches the lock step issues the single
batched lock request with the tier ids in the caller's ticket order
(`dto.tickets.map tierId`), with no sorting applied; serialization relies on
the one batched `SELECT ... FOR UPDATE`, not on an application-side order. -/
theorem lockRequestUsesRequestOrder (s : DBState) (dto : CreateBookingDto)
    (pay : Bool) (bid : String)
    (h1 : BookingRepository.findByIdempotencyKey s dto.idempotencyKey = none)
    (h2 : ConcertRepository.exist s dto.concertId = true) :
    (BookingService.createBooking s dto pay bid).events.head? =
      some (.lockAcquired (dto.tickets.map (fun t => t.tierId)) dto.concertId) :=
  createBooking_events_lock s dto pay bid h1 h2

theorem lockRequestUsesRequestOrder_witness :
    (BookingService.createBooking twoTierState dtoBA true "x").events.head? =
      some (.lockAcquired (dtoBA.tickets.map (fun t => t.tierId)) dtoBA.concertId) :=
  lockRequestUsesRequestOrder twoTierState dtoBA true "x"
    (by norm_num [BookingRepository.findByIdempotencyKey, twoTierState, dtoBA])
    (by norm_num [ConcertRepository.exist, twoTierState, dtoBA])

lemma foldl_add_map {α : Type} (f : α → ℚ) (l : List α) (c : ℚ) :
    l.foldl (fun a x => a + f x) c = c + (l.map f).sum := by
  induction l generalizing c with
  | nil => simp
  | cons x xs ih => simp [List.foldl_cons, ih, add_assoc]

lemma calculatedTotal_eq_sum (lt : List TicketTier) (tks : List TicketRequest) :
    BookingService.calculatedTotal lt tks =
      (tks.map (fun t => BookingService.tierPrice lt t.tierId * (t.quantity : ℚ))).sum := by
  unfold BookingService.calculatedTotal
  rw [foldl_add_map]
  simp

lemma mkItems_booking_id (bid : String) (inputs : List BookingRepository.BookingItemInput)
    (n : Nat) : ∀ it ∈ BookingRepository.mkItems bid inputs n, it.booking_id = bid := by
  induction inputs generalizing n with
  | nil => simp [BookingRepository.mkItems]
  | cons i rest ih =>
    intro it hit
    rw [BookingRepository.mkItems] at hit
    rcases List.mem_cons.mp hit with h | h
    · rw [h]
    · exact ih (n + 1) it h

lemma mkItems_total (bid : String) (inputs : List BookingRepository.BookingItemInput)
    (n : Nat) :
    ((BookingRepository.mkItems bid inputs n).map
      (fun it => it.price_per_ticket * (it.quantity : ℚ))).sum =
      (inputs.map (fun i => i.pricePerTicket * (i.quantity : ℚ))).sum := by
  induction inputs generalizing n with
  | nil => simp [BookingRepository.mkItems]
  | cons i rest ih =>
    rw [BookingRepository.mkItems]
    simp only [List.map_cons, List.sum_cons]
    rw [ih (n + 1)]

lemma writtenState_items (s : DBState) (dto : CreateBookingDto) (bid st : String) :
    (writtenState s dto bid st).items =
      s.items ++ BookingRepository.mkItems bid
        (BookingService.itemInputs (lockedOf s dto) dto.tickets) 0 := by
  simp [writtenState, BookingRepository.updateBookingStatus,
        BookingRepository.createBookingItems, BookingRepository.createBooking,
        decrementAll_items, lockedOf]

lemma itemsTotal_writtenState (s : DBState) (dto : CreateBookingDto) (bid st : String)
    (hfI : ∀ it ∈ s.items, it.booking_id ≠ bid) :
    itemsTotal (writtenState s dto bid st) bid =
      BookingService.calculatedTotal (lockedOf s dto) dto.tickets := by
  unfold itemsTotal
  rw [writtenState_items, List.filter_append]
  have hold : s.items.filter (fun it => it.booking_id == bid) = [] := by
    rw [List.filter_eq_nil_iff]
    intro it hit
    simp [hfI it hit]
  have hnew : (BookingRepository.mkItems bid
      (BookingService.itemInputs (lockedOf s dto) dto.tickets) 0).filter
      (fun it => it.booking_id == bid) =
      BookingRepository.mkItems bid
        (BookingService.itemInputs (lockedOf s dto) dto.tickets) 0 := by
    rw [List.filter_eq_self]
    intro it hit
    simp [mkItems_booking_id bid _ 0 it hit]
  rw [hold, hnew, List.nil_append, mkItems_total, calculatedTotal_eq_sum]
  unfold BookingService.itemInputs
  rw [List.map_map]
  rfl

/-- Variant of `demoDto` with a claimed total of 200.005 = 40001/200: within the 0.01
tolerance of the authoritative 200, so the booking is created, and the claimed
value — not the recomputed one — is what the booking row stores. -/
def dtoTolerance : CreateBookingDto :=
  { concertId := "c1", userId := "u1", tickets := [⟨"t1", 2⟩],
    idempotencyKey := "k1", totalAmount := 40001/200 }

/-- C7 counterexample: a confirmed booking whose stored `total_amount`
(200.005, the caller's claimed value) differs from the sum of its items'
`price_per_ticket × quantity` (200, from the locked authoritative price):
the service stores `dto.totalAmount`, which the validator only constrains to
within 0.01 of the recomputed total, so exact equality fails. -/
theorem storedTotalDiffersFromItemsSum_counterexample :
    (BookingService.createBooking demoState dtoTolerance true "b7").outcome =
      .success "b7" false ∧
    ((BookingService.createBooking demoState dtoTolerance true "b7").state.bookings.filter
        (fun b => b.id == "b7")).map (fun b => b.total_amount) = [(40001/200 : ℚ)] ∧
    itemsTotal (BookingService.createBooking demoState dtoTolerance true "b7").state "b7" =
      200 ∧
    ((40001/200 : ℚ) ≠ 200) := by
  have hlt : ¬((1 : ℚ)/100 < |(1 : ℚ)/200|) := by
    rw [abs_of_pos (by norm_num)]
    norm_num
  refine ⟨?_, ?_, ?_, by norm_num⟩ <;>
    norm_num [hlt, BookingService.createBooking, BookingService.createBookingTx,
      BookingService.isError, BookingRepository.findByIdempotencyKey,
      demoState, dtoTolerance, ConcertRepository.exist,
      BookingRepository.lockTicketTiers, BookingService.checkTickets,
      BookingService.calculatedTotal, BookingService.tierPrice,
      BookingService.decrementAll, BookingRepository.updateTierInventory,
      BookingService.pendingBooking, BookingRepository.createBooking,
      BookingService.itemInputs, BookingRepository.createBookingItems,
      BookingRepository.mkItems, BookingRepository.updateBookingStatus, itemsTotal]

/-- C7 amended: for every booking created by a fresh successful attempt, the
stored total equals the caller's claimed `dto.totalAmount`; the sum of its
items' `price_per_ticket × quantity` equals the total recomputed from the
locked authoritative prices at creation time; and the two agree within the
0.01 tolerance enforced by the amount validation (exact equality is not
guaranteed). -/
theorem storedTotalWithinTolerance (s : DBState) (dto : CreateBookingDto)
    (pay : Bool) (bid : String)
    (h : (BookingService.createBooking s dto pay bid).outcome = .success bid false)
    (hfI : ∀ it ∈ s.items, it.booking_id ≠ bid) :
    ∃ b ∈ (BookingService.createBooking s dto pay bid).state.bookings,
      b.id = bid ∧ b.total_amount = dto.totalAmount ∧
      itemsTotal (BookingService.createBooking s dto pay bid).state bid =
        BookingService.calculatedTotal (lockedOf s dto) dto.tickets ∧
      |b.total_amount -
        itemsTotal (BookingService.createBooking s dto pay bid).state bid| ≤ 1/100 := by
  obtain ⟨-, hpc, -, heq⟩ := createBooking_success_char s dto pay bid bid h
  have hstate : (BookingService.createBooking s dto pay bid).state =
      writtenState s dto bid "confirmed" := by rw [heq]
  rw [hstate]
  obtain ⟨b, hb, hid, -, -, htot⟩ := writtenState_mem_booking s dto bid "confirmed"
  have hit := itemsTotal_writtenState s dto bid "confirmed" hfI
  refine ⟨b, hb, hid, htot, hit, ?_⟩
  rw [htot, hit]
  have hle := not_lt.mp hpc.2
  rw [abs_sub_comm] at hle
  exact hle

theorem storedTotalWithinTolerance_witness :
    ∃ b ∈ (BookingService.createBooking demoState dtoTolerance true "b7").state.bookings,
      b.id = "b7" ∧ b.total_amount = dtoTolerance.totalAmount ∧
      itemsTotal (BookingService.createBooking demoState dtoTolerance true "b7").state "b7" =
        BookingService.calculatedTotal (lockedOf demoState dtoTolerance)
          dtoTolerance.tickets ∧
      |b.total_amount -
        itemsTotal (BookingService.createBooking demoState dtoTolerance true "b7").state
          "b7"| ≤ 1/100 :=
  storedTotalWithinTolerance demoState dtoTolerance true "b7"
    (by
      have hlt : ¬((1 : ℚ)/100 < |(1 : ℚ)/200|) := by
        rw [abs_of_pos (by norm_num)]
        norm_num
      norm_num [hlt, BookingService.createBooking, BookingService.createBookingTx,
        BookingService.isError, BookingRepository.findByIdempotencyKey,
        demoState, dtoTolerance, ConcertRepository.exist,
        BookingRepository.lockTicketTiers, BookingService.checkTickets,
        BookingService.calculatedTotal, BookingService.tierPrice])
    (by simp [demoState])

/-! ## The Express error handler (`errorHandler` middleware) -/

/-- The error values that can reach `errorHandler`: the `app.error.ts` class
hierarchy (one variant per subclass, plus `appError` for a plain `AppError`),
Zod validation errors, errors from the Postgres driver (which carry a string
`code` and a `severity`, as tested by `isPostgresError`), and anything else. -/
inductive ServerError where
  | zodError
  | validationError (msg : String)
  | notFoundError (msg : String)
  | unauthorizedError (msg : String)
  | forbiddenError (msg : String)
  | alreadyExistsError (msg : String) (details : Option String)
  | conflictError (msg : String) (details : Option String)
  | databaseError (msg : String) (statusCode : Nat) (details : Option String)
  | serviceUnavailableError (msg : String)
  | badRequestError (msg : String) (details : Option String)
  | postgresError (code : String) (severity : String) (detail : Option String)
      (msg : String)
  | appError (msg : String) (statusCode : Nat)
  | unexpected (msg : String)
deriving DecidableEq

/-- The observable part of the HTTP reply the handler produces: the status
code set on the response and the top-level `message` field. -/
structure HttpResponse where
  status : Nat
  message : String
deriving DecidableEq

/-- The `errorHandler` middleware: the `instanceof` dispatch chain and
the Postgres `switch (err.code)`, in source order, each branch ending in the
`ResponseUtil` call whose status code and message are modelled.  The
production/development message split of the default Postgres branch is
modelled with the production message. -/
def errorHandler : ServerError → HttpResponse
  | .zodError => ⟨400, "Validation failed"⟩
  | .validationError msg => ⟨400, msg⟩
  | .notFoundError msg => ⟨404, msg⟩
  | .unauthorizedError msg => ⟨401, msg⟩
  | .forbiddenError msg => ⟨403, msg⟩
  | .alreadyExistsError msg _ => ⟨409, msg⟩
  | .conflictError msg _ => ⟨409, msg⟩
  | .databaseError msg statusCode _ => ⟨statusCode, msg⟩
  | .serviceUnavailableError msg => ⟨503, msg⟩
  | .badRequestError msg _ => ⟨400, msg⟩
  | .postgresError code _ _ _ =>
    if code == "23505" then ⟨409, "Duplicate entry"⟩
    else if code == "23503" then ⟨400, "Foreign key constraint failed"⟩
    else if code == "23502" then ⟨400, "Required field missing"⟩
    else if code == "23514" then ⟨400, "Data validation failed"⟩
    else if code == "42P01" then ⟨500, "Internal server error"⟩
    else if code == "08006" || code == "08003" then
      ⟨503, "Service temporarily unavailable"⟩
    else if code == "40001" then ⟨409, "Concurrent transaction conflict, please retry"⟩
    else if code == "55P03" then
      ⟨409, "Resource is currently being modified, please retry"⟩
    else ⟨500, "Database operation failed"⟩
  | .appError msg statusCode => ⟨statusCode, msg⟩
  | .unexpected msg => ⟨500, msg⟩

/-- C8: when two first-time submissions with one idempotency key both reach
the insert, the second raw insert violates the schema's UNIQUE constraint on
`bookings.idempotency_key` — so the store rejects the losing writer (Postgres
unique_violation, code 23505) — and the error handler maps exactly that
rejection to an HTTP 409 conflict reply ("Duplicate entry" via
`ResponseUtil.conflict`), not to a crash or a 500 internal error. -/
theorem uniqueViolationSurfacedAsConflict (s : DBState) (b : Booking)
    (severity msg : String) (detail : Option String)
    (h : ∃ b0 ∈ s.bookings, b0.idempotency_key = b.idempotency_key) :
    ¬ bookingsKeyUnique (BookingRepository.createBooking s b) ∧
    errorHandler (.postgresError "23505" severity detail msg) =
      ⟨409, "Duplicate entry"⟩ ∧
    (errorHandler (.postgresError "23505" severity detail msg)).status ≠ 500 := by
  refine ⟨?_, rfl, by simp [errorHandler]⟩
  intro hu
  unfold bookingsKeyUnique BookingRepository.createBooking at hu
  rw [List.map_append, List.nodup_append] at hu
  obtain ⟨b0, hb0, hkey⟩ := h
  exact hu.2.2 (List.mem_map_of_mem _ hb0) (by simp [hkey])

theorem uniqueViolationSurfacedAsConflict_witness :
    ¬ bookingsKeyUnique (BookingRepository.createBooking
        { concerts := [], tiers := [],
          bookings := [⟨"b1", "c1", "u1", "k1", "confirmed", 100⟩], items := [] }
        ⟨"b2", "c1", "u2", "k1", "pending", 100⟩) ∧
    errorHandler (.postgresError "23505" "ERROR" none "duplicate key value") =
      ⟨409, "Duplicate entry"⟩ ∧
    (errorHandler (.postgresError "23505" "ERROR" none
      "duplicate key value")).status ≠ 500 :=
  uniqueViolationSurfacedAsConflict
    { concerts := [], tiers := [],
      bookings := [⟨"b1", "c1", "u1", "k1", "confirmed", 100⟩], items := [] }
    ⟨"b2", "c1", "u2", "k1", "pending", 100⟩ "ERROR" "duplicate key value" none
    ⟨⟨"b1", "c1", "u1", "k1", "confirmed", 100⟩, by simp, rfl⟩

/-! ## Request validation (`create-booking.dto.ts` and the `validate` middleware) -/

/-- Hexadecimal digit, as accepted by zod's UUID regular expression. -/
def isHexDigit (c : Char) : Bool :=
  c.isDigit || (('a' ≤ c) && (c ≤ 'f')) || (('A' ≤ c) && (c ≤ 'F'))

/-- Embeds `z.string().uuid()`: the canonical 8-4-4-4-12 hexadecimal shape with
dashes at positions 8, 13, 18 and 23 (case-insensitive). -/
def isUuid (str : String) : Bool :=
  let cs := str.toList
  (cs.length == 36) &&
  ((List.range 36).all (fun i =>
    if i == 8 || i == 13 || i == 18 || i == 23 then cs.getD i ' ' == '-'
    else isHexDigit (cs.getD i ' ')))

/-- One entry of the raw `tickets` array: a string and a JSON number. -/
structure RawTicket where
  tierId : String
  quantity : ℚ
deriving DecidableEq

/-- The raw request body (field types as parsed from JSON). -/
structure RawBookingRequest where
  concertId : String
  userId : String
  tickets : List RawTicket
  idempotencyKey : String
  totalAmount : ℚ
deriving DecidableEq

/-- The per-ticket refinements: `tierId: z.string().min(1)`,
`quantity: z.number().int().min(1).max(10)` (`int()` means the JSON number is
an integer, i.e. denominator 1). -/
def validTicket (t : RawTicket) : Bool :=
  decide (1 ≤ t.tierId.length) && (t.quantity.den == 1) &&
  decide (1 ≤ t.quantity) && decide (t.quantity ≤ 10)

/-- The zod object `CreateBookingSchema` (`create-booking.dto.ts`): all the refinements
of the create-booking body. -/
def CreateBookingSchema (r : RawBookingRequest) : Bool :=
  decide (1 ≤ r.concertId.length) &&
  decide (1 ≤ r.userId.length) &&
  r.tickets.all validTicket &&
  decide (1 ≤ r.tickets.length) &&
  decide (r.tickets.length ≤ 3) &&
  isUuid r.idempotencyKey &&
  decide (0 < r.totalAmount)

/-- The validated body as handed to the service (quantities are integers at
this point, so they are read off as `Int`). -/
def toDto (r : RawBookingRequest) : CreateBookingDto :=
  { concertId := r.concertId, userId := r.userId,
    tickets := r.tickets.map (fun t => ⟨t.tierId, t.quantity.num⟩),
    idempotencyKey := r.idempotencyKey, totalAmount := r.totalAmount }

/-- Embeds `router.post('/', validate(CreateBookingSchema), bookingController.createBooking)`:
the validation middleware replies 400 and never calls the controller when the
schema rejects (`none`); otherwise the transaction engine runs. -/
def postBookings (s : DBState) (r : RawBookingRequest) (pay : Bool)
    (bid : String) : Option BookingService.TxResult :=
  if CreateBookingSchema r then
    some (BookingService.createBooking s (toDto r) pay bid)
  else none

/-- C10: the public create-booking interface accepts a request exactly when
it has 1 to 3 ticket entries, each with a non-empty tierId and an integer
quantity between 1 and 10, non-empty concertId and userId, a syntactically
valid UUID idempotency key, and a strictly positive total amount; any request
outside this shape is rejected by validation with the transaction engine
never run. -/
theorem createBookingValidationLimits (r : RawBookingRequest) (s : DBState)
    (pay : Bool) (bid : String) :
    (CreateBookingSchema r = true ↔
      (1 ≤ r.tickets.length ∧ r.tickets.length ≤ 3 ∧
       (∀ t ∈ r.tickets, 1 ≤ t.tierId.length ∧ t.quantity.den = 1 ∧
          1 ≤ t.quantity ∧ t.quantity ≤ 10) ∧
       1 ≤ r.concertId.length ∧ 1 ≤ r.userId.length ∧
       isUuid r.idempotencyKey = true ∧ 0 < r.totalAmount)) ∧
    (CreateBookingSchema r = false → postBookings s r pay bid = none) := by
  constructor
  · unfold CreateBookingSchema validTicket
    simp only [Bool.and_eq_true, decide_eq_true_eq, List.all_eq_true, beq_iff_eq]
    constructor
    · rintro ⟨⟨⟨⟨⟨⟨hc, hu⟩, hall⟩, hl1⟩, hl3⟩, huuid⟩, htot⟩
      refine ⟨hl1, hl3, fun t ht => ?_, hc, hu, huuid, htot⟩
      obtain ⟨⟨⟨h1, h2⟩, h3⟩, h4⟩ := hall t ht
      exact ⟨h1, h2, h3, h4⟩
    · rintro ⟨hl1, hl3, hall, hc, hu, huuid, htot⟩
      refine ⟨⟨⟨⟨⟨⟨hc, hu⟩, fun t ht => ?_⟩, hl1⟩, hl3⟩, huuid⟩, htot⟩
      obtain ⟨h1, h2, h3, h4⟩ := hall t ht
      exact ⟨⟨⟨h1, h2⟩, h3⟩, h4⟩
  · intro h
    unfold postBookings
    rw [h]
    simp

/-- An out-of-shape request: empty tickets array. -/
def rawBad : RawBookingRequest :=
  { concertId := "c1", userId := "u1", tickets := [],
    idempotencyKey := "123e4567-e89b-12d3-a456-426614174000", totalAmount := 200 }

theorem createBookingValidationLimits_witness :
    CreateBookingSchema rawBad = false ∧
    postBookings demoState rawBad true "b1" = none :=
  ⟨by decide, (createBookingValidationLimits rawBad demoState true "b1").2 (by decide)⟩

/-! ## Inventory conservation (C1) -/

/-- The per-tier effect of the STEP 6 inventory-update loop: each ticket of
the request whose tierId matches subtracts its quantity (and bumps the
version). -/
def applyTickets (tks : List TicketRequest) (t : TicketTier) : TicketTier :=
  tks.foldl (fun t2 tk =>
    if t2.id == tk.tierId then
      { t2 with available_quantity := t2.available_quantity - tk.quantity,
                version := t2.version + 1 }
    else t2) t

lemma decrementAll_tiers (s : DBState) (tks : List TicketRequest) :
    (BookingService.decrementAll s tks).tiers = s.tiers.map (applyTickets tks) := by
  induction tks generalizing s with
  | nil =>
    simp only [BookingService.decrementAll, List.foldl_nil]
    have : applyTickets [] = fun t => t := rfl
    rw [this, List.map_id']
  | cons tk rest ih =>
    rw [BookingService.decrementAll, List.foldl_cons]
    have h1 := ih (BookingRepository.updateTierInventory s tk.tierId tk.quantity)
    rw [BookingService.decrementAll] at h1
    rw [h1]
    unfold BookingRepository.updateTierInventory
    rw [List.map_map]
    rfl

lemma applyTickets_spec (tks : List TicketRequest) (t : TicketTier) :
    (applyTickets tks t).id = t.id ∧
    (applyTickets tks t).concert_id = t.concert_id ∧
    (applyTickets tks t).tier_name = t.tier_name ∧
    (applyTickets tks t).price = t.price ∧
    (applyTickets tks t).total_quantity = t.total_quantity ∧
    (applyTickets tks t).available_quantity =
      t.available_quantity - sumQtyFor tks t.id := by
  induction tks generalizing t with
  | nil => simp [applyTickets, sumQtyFor]
  | cons tk rest ih =>
    have hg : applyTickets (tk :: rest) t = applyTickets rest
        (if t.id == tk.tierId then
          { t with available_quantity := t.available_quantity - tk.quantity,
                   version := t.version + 1 }
        else t) := rfl
    by_cases hid : t.id == tk.tierId
    · rw [hg, if_pos hid]
      obtain ⟨h1, h2, h3, h4, h5, h6⟩ := ih
        { t with available_quantity := t.available_quantity - tk.quantity,
                 version := t.version + 1 }
      refine ⟨h1, h2, h3, h4, h5, ?_⟩
      rw [h6]
      have heq : tk.tierId = t.id := (beq_iff_eq.mp hid).symm
      unfold sumQtyFor
      rw [List.filter_cons]
      simp only [heq, beq_self_eq_true, if_true, List.map_cons, List.sum_cons]
      omega
    · rw [hg, if_neg hid]
      obtain ⟨h1, h2, h3, h4, h5, h6⟩ := ih t
      refine ⟨h1, h2, h3, h4, h5, ?_⟩
      rw [h6]
      have hne : (tk.tierId == t.id) = false := by
        rw [beq_eq_false_iff_ne]
        intro hx
        exact hid (by rw [hx]; exact beq_self_eq_true t.id)
      unfold sumQtyFor
      rw [List.filter_cons]
      simp [hne]

lemma writtenState_tiers (s : DBState) (dto : CreateBookingDto) (bid st : String) :
    (writtenState s dto bid st).tiers = s.tiers.map (applyTickets dto.tickets) := by
  have h := decrementAll_tiers s dto.tickets
  simp [writtenState, BookingRepository.updateBookingStatus,
        BookingRepository.createBookingItems, BookingRepository.createBooking, h]

lemma lockedOf_mem (s : DBState) (dto : CreateBookingDto) (t : TicketTier)
    (h : t ∈ lockedOf s dto) :
    t ∈ s.tiers ∧ t.id ∈ dto.tickets.map (fun tk => tk.tierId) ∧
      t.concert_id = dto.concertId := by
  unfold lockedOf BookingRepository.lockTicketTiers at h
  obtain ⟨hmem, hp⟩ := List.mem_filter.mp h
  rw [Bool.and_eq_true] at hp
  refine ⟨hmem, ?_, beq_iff_eq.mp hp.2⟩
  exact List.elem_iff.mp hp.1

lemma lockedOf_ids_nodup (s : DBState) (dto : CreateBookingDto)
    (htiers : (s.tiers.map (fun t => t.id)).Nodup) :
    ((lockedOf s dto).map (fun t => t.id)).Nodup := by
  unfold lockedOf BookingRepository.lockTicketTiers
  exact htiers.sublist ((List.filter_sublist _).map _)

lemma tierIds_perm_of_locked_length (s : DBState) (dto : CreateBookingDto)
    (htiers : (s.tiers.map (fun t => t.id)).Nodup)
    (hlen : (lockedOf s dto).length = (dto.tickets.map (fun tk => tk.tierId)).length) :
    ((lockedOf s dto).map (fun t => t.id)).Perm
      (dto.tickets.map (fun tk => tk.tierId)) ∧
    (dto.tickets.map (fun tk => tk.tierId)).Nodup := by
  have hnd := lockedOf_ids_nodup s dto htiers
  have hsub : ((lockedOf s dto).map (fun t => t.id)) ⊆
      dto.tickets.map (fun tk => tk.tierId) := by
    intro x hx
    obtain ⟨t, ht, rfl⟩ := List.mem_map.mp hx
    exact (lockedOf_mem s dto t ht).2.1
  have hsp := List.subperm_of_subset hnd hsub
  have hlen2 : (dto.tickets.map (fun tk => tk.tierId)).length ≤
      ((lockedOf s dto).map (fun t => t.id)).length := by
    simp only [List.length_map]
    simp only [List.length_map] at hlen
    omega
  have hperm := hsp.perm_of_length_le hlen2
  exact ⟨hperm, hperm.nodup_iff.mp hnd⟩

lemma checkTickets_none_spec (lt : List TicketTier) (tks : List TicketRequest)
    (h : BookingService.checkTickets lt tks = none) :
    ∀ tk ∈ tks, ∃ tr, lt.find? (fun t => t.id == tk.tierId) = some tr ∧
      tk.quantity ≤ tr.available_quantity := by
  induction tks with
  | nil => simp
  | cons tk0 rest ih =>
    rw [BookingService.checkTickets] at h
    cases hf : lt.find? (fun t => t.id == tk0.tierId) with
    | none => simp [hf] at h
    | some tier =>
      simp only [hf] at h
      by_cases h1 : tier.available_quantity < tk0.quantity
      · rw [if_pos h1] at h
        exact absurd h (by simp)
      · rw [if_neg h1] at h
        by_cases h2 : (tier.available_quantity == 0) = true
        · rw [if_pos h2] at h
          exact absurd h (by simp)
        · rw [if_neg h2] at h
          intro tk htk
          rcases List.mem_cons.mp htk with rfl | hmem
          · exact ⟨tier, hf, le_of_not_lt h1⟩
          · exact ih h tk hmem

lemma find?_eq_of_ids_nodup (l : List TicketTier) (t : TicketTier)
    (hnd : (l.map (fun x => x.id)).Nodup) (ht : t ∈ l) :
    l.find? (fun x => x.id == t.id) = some t := by
  induction l with
  | nil => cases ht
  | cons a rest ih =>
    rw [List.map_cons, List.nodup_cons] at hnd
    rcases List.mem_cons.mp ht with rfl | hmem
    · rw [List.find?_cons_of_pos (p := fun (x : TicketTier) => x.id == t.id) _ (beq_self_eq_true t.id)]
    · have hane : (a.id == t.id) = false := by
        rw [beq_eq_false_iff_ne]
        intro hx
        exact hnd.1 (hx ▸ List.mem_map_of_mem (fun x => x.id) hmem)
      rw [List.find?_cons_of_neg (p := fun (x : TicketTier) => x.id == t.id) _ (by simp [hane])]
      exact ih hnd.2 hmem

lemma sumQtyFor_nonneg (tks : List TicketRequest) (tid : String)
    (hq : ∀ tk ∈ tks, 1 ≤ tk.quantity) : 0 ≤ sumQtyFor tks tid := by
  unfold sumQtyFor
  apply List.sum_nonneg
  intro x hx
  obtain ⟨tk, htk, rfl⟩ := List.mem_map.mp hx
  have := hq tk (List.mem_of_mem_filter htk)
  omega

lemma sumQtyFor_eq_zero (tks : List TicketRequest) (tid : String)
    (h : tid ∉ tks.map (fun tk => tk.tierId)) : sumQtyFor tks tid = 0 := by
  unfold sumQtyFor
  have : tks.filter (fun tk => tk.tierId == tid) = [] := by
    rw [List.filter_eq_nil_iff]
    intro tk htk hc
    exact h (beq_iff_eq.mp hc ▸ List.mem_map_of_mem _ htk)
  rw [this]
  rfl

lemma sumQtyFor_eq_single (tks : List TicketRequest) (tk : TicketRequest)
    (hnd : (tks.map (fun x => x.tierId)).Nodup) (htk : tk ∈ tks) :
    sumQtyFor tks tk.tierId = tk.quantity := by
  induction tks with
  | nil => cases htk
  | cons a rest ih =>
    rw [List.map_cons, List.nodup_cons] at hnd
    rcases List.mem_cons.mp htk with rfl | hmem
    · unfold sumQtyFor
      rw [List.filter_cons, if_pos (beq_self_eq_true tk.tierId)]
      have hrest : rest.filter (fun x => x.tierId == tk.tierId) = [] := by
        rw [List.filter_eq_nil_iff]
        intro x hx hc
        exact hnd.1 ((beq_iff_eq.mp hc) ▸ List.mem_map_of_mem _ hx)
      rw [hrest]
      simp
    · have hane : (a.tierId == tk.tierId) = false := by
        rw [beq_eq_false_iff_ne]
        intro hx
        exact hnd.1 (hx ▸ List.mem_map_of_mem _ hmem)
      unfold sumQtyFor
      rw [List.filter_cons, if_neg (by simp [hane])]
      exact ih hnd.2 hmem

lemma find?_status_map (l : List Booking) (bid st k : String) :
    (l.map (fun b => if b.id == bid then { b with status := st } else b)).find?
      (fun b => b.id == k) =
    (l.find? (fun b => b.id == k)).map
      (fun b => if b.id == bid then { b with status := st } else b) := by
  induction l with
  | nil => rfl
  | cons a rest ih =>
    have hid : ((if a.id == bid then { a with status := st } else a) : Booking).id =
        a.id := by
      by_cases h : a.id == bid <;> simp [h]
    rw [List.map_cons]
    by_cases hk : (a.id == k) = true
    · rw [List.find?_cons_of_pos (p := fun (b : Booking) => b.id == k) _
          (by simp only [hid]; exact hk),
        List.find?_cons_of_pos (p := fun (b : Booking) => b.id == k) _ hk]
      rfl
    · rw [List.find?_cons_of_neg (p := fun (b : Booking) => b.id == k) _
          (by simp only [hid]; simpa using hk),
        List.find?_cons_of_neg (p := fun (b : Booking) => b.id == k) _ (by simpa using hk)]
      exact ih

lemma bookingStatusOf_writtenState_old (s : DBState) (dto : CreateBookingDto)
    (bid st k : String) (hk : k ≠ bid) :
    bookingStatusOf (writtenState s dto bid st) k = bookingStatusOf s k := by
  unfold bookingStatusOf
  rw [writtenState_bookings, List.find?_append, find?_status_map]
  cases hf : s.bookings.find? (fun b => b.id == k) with
  | some b =>
    have hpb : (b.id == k) = true := List.find?_some (p := fun (b2 : Booking) => b2.id == k) hf
    have hbid : (b.id == bid) = false := by
      rw [beq_eq_false_iff_ne, beq_iff_eq.mp hpb]
      exact hk
    simp [hbid, beq_eq_false_iff_ne.mp hbid]
  | none =>
    have hnb : (bid == k) = false := by
      rw [beq_eq_false_iff_ne]
      exact fun hx => hk hx.symm
    simp [hnb]

lemma bookingStatusOf_writtenState_new (s : DBState) (dto : CreateBookingDto)
    (bid st : String) (hfreshB : ∀ b ∈ s.bookings, b.id ≠ bid) :
    bookingStatusOf (writtenState s dto bid st) bid = some st := by
  unfold bookingStatusOf
  rw [writtenState_bookings, List.find?_append, find?_status_map]
  have hf : s.bookings.find? (fun b => b.id == bid) = none := by
    rw [List.find?_eq_none]
    intro b hb
    simp [hfreshB b hb]
  simp [hf]

lemma mkItems_filter_sum (bid tid : String)
    (inputs : List BookingRepository.BookingItemInput) (n : Nat) :
    (((BookingRepository.mkItems bid inputs n).filter
        (fun it => it.tier_id == tid)).map (fun it => it.quantity)).sum =
    ((inputs.filter (fun i => i.tierId == tid)).map (fun i => i.quantity)).sum := by
  induction inputs generalizing n with
  | nil => simp [BookingRepository.mkItems]
  | cons i rest ih =>
    rw [BookingRepository.mkItems]
    rw [List.filter_cons, List.filter_cons]
    by_cases hc : (i.tierId == tid) = true
    · simp only [hc, if_true, List.map_cons, List.sum_cons]
      rw [ih (n + 1)]
    · simp only [hc, if_false, Bool.false_eq_true]
      exact ih (n + 1)

lemma itemInputs_filter_sum (lt : List TicketTier) (tks : List TicketRequest)
    (tid : String) :
    (((BookingService.itemInputs lt tks).filter
        (fun i => i.tierId == tid)).map (fun i => i.quantity)).sum =
      sumQtyFor tks tid := by
  unfold BookingService.itemInputs sumQtyFor
  rw [List.filter_map, List.map_map]
  rfl

lemma confirmedQuantity_writtenState (s : DBState) (dto : CreateBookingDto)
    (bid tid : String)
    (hfreshB : ∀ b ∈ s.bookings, b.id ≠ bid)
    (hfreshI : ∀ it ∈ s.items, it.booking_id ≠ bid) :
    confirmedQuantity (writtenState s dto bid "confirmed") tid =
      confirmedQuantity s tid + sumQtyFor dto.tickets tid := by
  unfold confirmedQuantity
  rw [writtenState_items, List.filter_append, List.map_append, List.sum_append]
  have hold : s.items.filter (fun it =>
      it.tier_id == tid &&
        bookingStatusOf (writtenState s dto bid "confirmed") it.booking_id ==
          some "confirmed") =
      s.items.filter (fun it =>
        it.tier_id == tid && bookingStatusOf s it.booking_id == some "confirmed") := by
    apply List.filter_congr
    intro it hit
    rw [bookingStatusOf_writtenState_old s dto bid "confirmed" it.booking_id
      (hfreshI it hit)]
  have hnew : (BookingRepository.mkItems bid
      (BookingService.itemInputs (lockedOf s dto) dto.tickets) 0).filter
      (fun it => it.tier_id == tid &&
        bookingStatusOf (writtenState s dto bid "confirmed") it.booking_id ==
          some "confirmed") =
      (BookingRepository.mkItems bid
        (BookingService.itemInputs (lockedOf s dto) dto.tickets) 0).filter
      (fun it => it.tier_id == tid) := by
    apply List.filter_congr
    intro it hit
    have hb := mkItems_booking_id bid _ 0 it hit
    rw [hb, bookingStatusOf_writtenState_new s dto bid "confirmed" hfreshB]
    simp
  rw [hold, hnew, mkItems_filter_sum, itemInputs_filter_sum]

lemma invariant_writtenState (s : DBState) (dto : CreateBookingDto) (bid : String)
    (htiers : (s.tiers.map (fun t => t.id)).Nodup)
    (hcons : conservation s) (hbnd : quantityBounds s)
    (hq : ∀ tk ∈ dto.tickets, 1 ≤ tk.quantity)
    (hfreshB : ∀ b ∈ s.bookings, b.id ≠ bid)
    (hfreshI : ∀ it ∈ s.items, it.booking_id ≠ bid)
    (hpc : pathConds s dto) :
    conservation (writtenState s dto bid "confirmed") ∧
      quantityBounds (writtenState s dto bid "confirmed") := by
  obtain ⟨⟨h1, h2, h3, h4⟩, h5⟩ := hpc
  obtain ⟨hperm, hndtids⟩ := tierIds_perm_of_locked_length s dto htiers h3
  have hchk := checkTickets_none_spec _ _ h4
  constructor
  · intro t2 ht2
    rw [writtenState_tiers] at ht2
    obtain ⟨t, ht, rfl⟩ := List.mem_map.mp ht2
    obtain ⟨hid, -, -, -, htot, havail⟩ := applyTickets_spec dto.tickets t
    rw [havail, hid, htot]
    rw [confirmedQuantity_writtenState s dto bid t.id hfreshB hfreshI]
    have := hcons t ht
    omega
  · intro t2 ht2
    rw [writtenState_tiers] at ht2
    obtain ⟨t, ht, rfl⟩ := List.mem_map.mp ht2
    obtain ⟨hid, -, -, -, htot, havail⟩ := applyTickets_spec dto.tickets t
    rw [havail, htot]
    have hb := hbnd t ht
    by_cases hmem : t.id ∈ dto.tickets.map (fun tk => tk.tierId)
    · obtain ⟨tk, htk, htkid⟩ := List.mem_map.mp hmem
      have hsum : sumQtyFor dto.tickets t.id = tk.quantity := by
        rw [← htkid]
        exact sumQtyFor_eq_single dto.tickets tk hndtids htk
      have htlocked : t ∈ lockedOf s dto := by
        have hidin : t.id ∈ (lockedOf s dto).map (fun x => x.id) :=
          hperm.mem_iff.mpr hmem
        obtain ⟨t3, ht3, ht3id⟩ := List.mem_map.mp hidin
        have ht3s : t3 ∈ s.tiers := (lockedOf_mem s dto t3 ht3).1
        have heq := List.inj_on_of_nodup_map htiers ht3s ht ht3id
        rwa [← heq]
      have hfind : (lockedOf s dto).find? (fun x => x.id == tk.tierId) = some t := by
        rw [htkid]
        exact find?_eq_of_ids_nodup _ t (lockedOf_ids_nodup s dto htiers) htlocked
      obtain ⟨tr, htr, hqle⟩ := hchk tk htk
      have htreq : tr = t := by
        rw [hfind] at htr
        exact (Option.some.inj htr).symm
      rw [htreq] at hqle
      have hq1 := hq tk htk
      rw [hsum]
      omega
    · rw [sumQtyFor_eq_zero dto.tickets t.id hmem]
      omega

lemma createBooking_state_cases (s : DBState) (dto : CreateBookingDto)
    (pay : Bool) (bid : String) :
    (BookingService.createBooking s dto pay bid).state = s ∨
    (pathConds s dto ∧ (BookingService.createBooking s dto pay bid).state =
      writtenState s dto bid "confirmed") := by
  rcases tx_cases s dto pay bid with ⟨hs, -, -⟩ | ⟨hpc, hbr⟩
  · left
    by_cases hc : BookingService.isError
        (BookingService.createBookingTx s dto pay bid).outcome = true
    · rw [createBooking_state_eq, if_pos hc]
    · rw [createBooking_state_eq, if_neg hc]
      exact hs
  · rcases hbr with ⟨hp, heq⟩ | ⟨hp, heq⟩
    · right
      refine ⟨hpc, ?_⟩
      rw [createBooking_state_eq, heq]
      simp [BookingService.isError]
    · left
      rw [createBooking_state_eq, heq]
      simp [BookingService.isError]

lemma createBooking_booking_ids (s : DBState) (dto : CreateBookingDto)
    (pay : Bool) (bid : String) :
    ∀ b ∈ (BookingService.createBooking s dto pay bid).state.bookings,
      b.id ∈ s.bookings.map (fun x => x.id) ∨ b.id = bid := by
  intro b hb
  rcases createBooking_state_cases s dto pay bid with hs | ⟨-, hs⟩
  · rw [hs] at hb
    exact Or.inl (List.mem_map_of_mem _ hb)
  · rw [hs, writtenState_bookings] at hb
    rcases List.mem_append.mp hb with h | h
    · obtain ⟨b0, hb0, rfl⟩ := List.mem_map.mp h
      left
      have hid : ((if b0.id == bid then { b0 with status := "confirmed" } else b0) :
          Booking).id = b0.id := by
        by_cases hc : (b0.id == bid) = true <;> simp [hc]
      rw [hid]
      exact List.mem_map_of_mem _ hb0
    · right
      rw [List.mem_singleton.mp h]

lemma createBooking_item_bids (s : DBState) (dto : CreateBookingDto)
    (pay : Bool) (bid : String) :
    ∀ it ∈ (BookingService.createBooking s dto pay bid).state.items,
      it.booking_id ∈ s.items.map (fun x => x.booking_id) ∨ it.booking_id = bid := by
  intro it hit
  rcases createBooking_state_cases s dto pay bid with hs | ⟨-, hs⟩
  · rw [hs] at hit
    exact Or.inl (List.mem_map_of_mem _ hit)
  · rw [hs, writtenState_items] at hit
    rcases List.mem_append.mp hit with h | h
    · exact Or.inl (List.mem_map_of_mem _ h)
    · exact Or.inr (mkItems_booking_id bid _ 0 it h)

lemma createBooking_tier_ids (s : DBState) (dto : CreateBookingDto)
    (pay : Bool) (bid : String) :
    (BookingService.createBooking s dto pay bid).state.tiers.map (fun t => t.id) =
      s.tiers.map (fun t => t.id) := by
  rcases createBooking_state_cases s dto pay bid with hs | ⟨-, hs⟩
  · rw [hs]
  · rw [hs, writtenState_tiers, List.map_map]
    apply List.map_congr_left
    intro t ht
    exact (applyTickets_spec dto.tickets t).1

lemma invariant_step (s : DBState) (dto : CreateBookingDto) (pay : Bool) (bid : String)
    (htiers : (s.tiers.map (fun t => t.id)).Nodup)
    (hcons : conservation s) (hbnd : quantityBounds s)
    (hq : ∀ tk ∈ dto.tickets, 1 ≤ tk.quantity)
    (hfreshB : ∀ b ∈ s.bookings, b.id ≠ bid)
    (hfreshI : ∀ it ∈ s.items, it.booking_id ≠ bid) :
    conservation (BookingService.createBooking s dto pay bid).state ∧
      quantityBounds (BookingService.createBooking s dto pay bid).state := by
  rcases createBooking_state_cases s dto pay bid with hs | ⟨hpc, hs⟩
  · rw [hs]
    exact ⟨hcons, hbnd⟩
  · rw [hs]
    exact invariant_writtenState s dto bid htiers hcons hbnd hq hfreshB hfreshI hpc

/-- C1: along any sequence of completed `createBooking` attempts from a
well-formed store (distinct tier ids, the conservation equation and the
quantity bounds holding initially; positive requested quantities and fresh,
pairwise-distinct generated booking ids, as `randomUUID` provides), at every
quiescent point each tier's `available_quantity` equals `total_quantity`
minus the summed quantities of items of confirmed bookings, and
`0 ≤ available ≤ total` is preserved — rejected or failed attempts change
nothing, and no decrement drives availability below zero. -/
theorem inventoryConservation (s : DBState) (attempts : List AttemptInput)
    (htiers : (s.tiers.map (fun t => t.id)).Nodup)
    (hcons : conservation s) (hbnd : quantityBounds s)
    (hq : ∀ a ∈ attempts, ∀ tk ∈ a.dto.tickets, 1 ≤ tk.quantity)
    (hbids : (attempts.map (fun a => a.newBookingId)).Nodup)
    (hfB : ∀ a ∈ attempts, ∀ b ∈ s.bookings, b.id ≠ a.newBookingId)
    (hfI : ∀ a ∈ attempts, ∀ it ∈ s.items, it.booking_id ≠ a.newBookingId) :
    conservation (runBookings s attempts) ∧
      quantityBounds (runBookings s attempts) := by
  induction attempts generalizing s with
  | nil => exact ⟨hcons, hbnd⟩
  | cons a rest ih =>
    rw [runBookings]
    have hstep := invariant_step s a.dto a.paymentSuccess a.newBookingId htiers hcons hbnd
      (hq a (List.mem_cons_self a rest)) (hfB a (List.mem_cons_self a rest))
      (hfI a (List.mem_cons_self a rest))
    rw [List.map_cons, List.nodup_cons] at hbids
    apply ih
    · rw [createBooking_tier_ids]
      exact htiers
    · exact hstep.1
    · exact hstep.2
    · intro a2 ha2
      exact hq a2 (List.mem_cons_of_mem a ha2)
    · exact hbids.2
    · intro a2 ha2 b hb heq
      rcases createBooking_booking_ids s a.dto a.paymentSuccess a.newBookingId b hb with
        h | h
      · obtain ⟨b0, hb0, hb0id⟩ := List.mem_map.mp h
        exact hfB a2 (List.mem_cons_of_mem a ha2) b0 hb0 (by rw [hb0id, heq])
      · apply hbids.1
        rw [← h, heq]
        exact List.mem_map_of_mem _ ha2
    · intro a2 ha2 it hit heq
      rcases createBooking_item_bids s a.dto a.paymentSuccess a.newBookingId it hit with
        h | h
      · obtain ⟨it0, hit0, hit0id⟩ := List.mem_map.mp h
        exact hfI a2 (List.mem_cons_of_mem a ha2) it0 hit0 (by rw [hit0id, heq])
      · apply hbids.1
        rw [← h, heq]
        exact List.mem_map_of_mem _ ha2

/-- A store satisfying the invariant (tier at full capacity 10). -/
def invState : DBState :=
  { concerts := ["c1"],
    tiers := [⟨"t1", "c1", "VIP", 100, 10, 10, 0⟩],
    bookings := [], items := [] }

/-- Two attempts with distinct keys and fresh distinct booking ids. -/
def invAttempts : List AttemptInput :=
  [⟨⟨"c1", "u1", [⟨"t1", 2⟩], "k1", 200⟩, true, "b1"⟩,
   ⟨⟨"c1", "u2", [⟨"t1", 3⟩], "k2", 300⟩, true, "b2"⟩]

theorem inventoryConservation_witness :
    conservation (runBookings invState invAttempts) ∧
      quantityBounds (runBookings invState invAttempts) :=
  inventoryConservation invState invAttempts (by decide)
    (by unfold conservation; decide) (by unfold quantityBounds; decide)
    (by decide) (by decide) (by decide) (by decide)
